import Mathlib

/-!
Shallow embedding of `telegram/ext/conversationhandler.py`: the per-entity
conversation state machine `ConversationHandler` with its two-phase
`check_update` (identity extraction, state resolution, handler selection)
and `handle_update` (transition commit) contract.

Python exceptions are made explicit with `Except PyError`; Python `dict`
is an association list with first-match lookup, in-place overwrite and
`KeyError` on deleting an absent key, exactly as `del d[k]` behaves.
-/

set_option autoImplicit false

/-- Errors the embedded Python code can raise: attribute access on `None`
(`AttributeError`) and `del` of an absent dict key (`KeyError`). -/
inductive PyError where
  | attributeError
  | keyError
deriving DecidableEq, Repr

/-- Modelled from the spec: the acting party of an event (`telegram.User`,
not under `src/`); its `id` is the mandatory entity identifier of a
Conversation Identity. -/
structure User where
  id : Int
deriving DecidableEq, Repr

/-- Modelled from the spec: the grouping context of an event
(`telegram.Chat`, not under `src/`); its `id` is the optional grouping
identifier of a Conversation Identity. -/
structure Chat where
  id : Int
deriving DecidableEq, Repr

/-- Modelled from the spec: a message-shaped event payload
(`telegram.Message`, not under `src/`). The sender may be absent
(an event carrying a message with no sender); the chat is always present
on a message. -/
structure Message where
  from_user : Option User
  chat : Chat
deriving DecidableEq, Repr

/-- Modelled from the spec: a query event shape without grouping context
(`telegram.InlineQuery`, not under `src/`). -/
structure InlineQuery where
  from_user : Option User
deriving DecidableEq, Repr

/-- Modelled from the spec: a selection-result notification shape without
grouping context (`telegram.ChosenInlineResult`, not under `src/`). -/
structure ChosenInlineResult where
  from_user : Option User
deriving DecidableEq, Repr

/-- Modelled from the spec: a callback-style event shape
(`telegram.CallbackQuery`, not under `src/`); its grouping context comes
from the originating message, which may be unavailable. -/
structure CallbackQuery where
  from_user : Option User
  message : Option Message
deriving DecidableEq, Repr

/-- Modelled from the spec: the event representation (`telegram.Update`,
not under `src/`): at most one of the five recognized shapes is read by
the router, in the declared order of the source `if`/`elif` chain. -/
structure Update where
  message : Option Message
  edited_message : Option Message
  inline_query : Option InlineQuery
  chosen_inline_result : Option ChosenInlineResult
  callback_query : Option CallbackQuery
deriving DecidableEq, Repr

/-- An arbitrary Python object handed to `check_update`: either an
`Update` instance or anything else (the `isinstance` guard). -/
inductive PyObj where
  | nonUpdate
  | update (u : Update)
deriving DecidableEq, Repr

/-- A Python value that a handler callback can return and that can be
stored in `self.conversations`: `None`, a state value (an `Int`, as the
source uses `END = -1` among the state values), or a `Promise`.
Modelled from the spec for the `Promise` part
(`telegram.utils.promise.Promise`, not under `src/`): a Pending Result is
a handle whose `result()` blocks and then yields the completed outcome —
a state value, or `None`. -/
inductive PyVal where
  | none
  | int (v : Int)
  | promise (r : Option Int)
deriving DecidableEq, Repr

/-- The conversation key built by `check_update`:
`(chat.id, user.id) if chat else (None, user.id)`. -/
abbrev ConvKey := Option Int × Int

/-- The key type of the `self.conversations` dict together with the type
of `self.current_conversation`, which is initialized to Python `None`. -/
abbrev DictKey := Option ConvKey

/-- The `self.conversations` dict, as an association list. -/
abbrev ConvDict := List (DictKey × PyVal)

/-- `d.get(k)`: first entry with the key, or `None`. -/
def dget (d : ConvDict) (k : DictKey) : Option PyVal :=
  (d.find? (fun p => decide (p.1 = k))).map (fun p => p.2)

/-- `d[k] = v`: overwrite in place when the key is present, append
otherwise. -/
def dset (d : ConvDict) (k : DictKey) (v : PyVal) : ConvDict :=
  if d.any (fun p => decide (p.1 = k)) then
    d.map (fun p => if p.1 = k then (k, v) else p)
  else
    d ++ [(k, v)]

/-- The entry removal performed by `del d[k]` (the `KeyError` on an
absent key is raised at the call site in `handle_update`). -/
def ddel (d : ConvDict) (k : DictKey) : ConvDict :=
  d.filter (fun p => decide (p.1 ≠ k))

/-- Modelled from the spec: a handler object (`telegram.ext.Handler`,
not under `src/`), polymorphic over the capability set
{accepts this event?, process this event and report an outcome}; the
source consults exactly its `check_update` predicate and its
`handle_update` result. -/
structure TGHandler where
  check_update : Update → Bool
  handle_update : Update → PyVal

/-- The instance state of a `ConversationHandler`: the three handler
collections and the reentry flag from `__init__`, the conversation
store, and the transient Selection Record
(`current_conversation`, `current_handler`). -/
structure ConversationHandler where
  entry_points : List TGHandler
  states : List (Int × List TGHandler)
  fallbacks : List TGHandler
  allow_reentry : Bool
  conversations : ConvDict
  current_conversation : DictKey
  current_handler : Option TGHandler

/-- `ConversationHandler.END = -1`. -/
def ConversationHandler.END : Int := -1

/-- `__init__`: store the configuration, start with an empty store and
no Selection Record. -/
def ConversationHandler.init (entry_points : List TGHandler)
    (states : List (Int × List TGHandler)) (fallbacks : List TGHandler)
    (allow_reentry : Bool) : ConversationHandler :=
  { entry_points := entry_points
    states := states
    fallbacks := fallbacks
    allow_reentry := allow_reentry
    conversations := []
    current_conversation := none
    current_handler := none }

/-- The `if update.message / elif update.edited_message / ...` chain of
`check_update`: the `user` and `chat` locals for the first recognized
shape, or `none` when the final `else: return False` branch is taken. -/
def extract_user_chat (u : Update) : Option (Option User × Option Chat) :=
  match u.message with
  | some m => some (m.from_user, some m.chat)
  | none =>
    match u.edited_message with
    | some m => some (m.from_user, some m.chat)
    | none =>
      match u.inline_query with
      | some q => some (q.from_user, none)
      | none =>
        match u.chosen_inline_result with
        | some r => some (r.from_user, none)
        | none =>
          match u.callback_query with
          | some cq => some (cq.from_user, cq.message.map (fun m => m.chat))
          | none => none

/-- `state = self.conversations.get(key)` followed by
`if isinstance(state, Promise): state = state.result()`: the resolved
current state, `none` meaning Python `None` (no state). -/
def resolve_state (s : Option PyVal) : Option Int :=
  match s with
  | some (PyVal.int v) => some v
  | some (PyVal.promise r) => r
  | some PyVal.none => none
  | none => none

/-- `self.states.get(state)`: first-match lookup in the state table. -/
def ConversationHandler.states_get (c : ConversationHandler) (s : Int) :
    Option (List TGHandler) :=
  (c.states.find? (fun p => decide (p.1 = s))).map (fun p => p.2)

/-- `self.states.get(state) or []`: the handler list scanned for a
concrete state (a missing or empty registration both give `[]`). -/
def ConversationHandler.state_handlers (c : ConversationHandler) (s : Int) :
    List TGHandler :=
  (c.states_get s).getD []

/-- The two scanning blocks of `check_update` after state resolution:
entry points (guarded by `state is None or self.allow_reentry`, with the
`for/else` returning no match when `state is None`), then the current
state handler list (`self.states.get(state) or []`), then the
fallbacks. Returns the selected handler, or `none` for `return False`. -/
def ConversationHandler.select_handler (c : ConversationHandler) (u : Update)
    (state : Option Int) : Option TGHandler :=
  let fromEntry :=
    if state.isNone || c.allow_reentry then
      c.entry_points.find? (fun e => e.check_update u)
    else
      none
  match fromEntry with
  | some e => some e
  | none =>
    match state with
    | none => none
    | some s =>
      match (c.state_handlers s).find? (fun h => h.check_update u) with
      | some h => some h
      | none => c.fallbacks.find? (fun f => f.check_update u)

/-- `check_update`: the check phase. Extracts the identity, resolves the
stored state, selects a handler; on success records the Selection
Record and returns `True`, otherwise returns `False`. Raises
`AttributeError` when the recognized shape carries no sender
(`user` is `None` at `user.id`). -/
def ConversationHandler.check_update (c : ConversationHandler) (o : PyObj) :
    Except PyError (Bool × ConversationHandler) :=
  match o with
  | PyObj.nonUpdate => Except.ok (false, c)
  | PyObj.update u =>
    match extract_user_chat u with
    | none => Except.ok (false, c)
    | some (user, chat) =>
      match user with
      | none => Except.error PyError.attributeError
      | some usr =>
        let key : ConvKey := (chat.map Chat.id, usr.id)
        let state := resolve_state (dget c.conversations (some key))
        match c.select_handler u state with
        | none => Except.ok (false, c)
        | some h =>
          Except.ok (true,
            { c with current_conversation := some key, current_handler := some h })

/-- `handle_update`: the commit phase. Invokes the recorded handler
(`AttributeError` when none was ever recorded), then commits the
outcome: `END` deletes the recorded identity from the store
(`KeyError` when absent), `None` leaves the store untouched, any other
value overwrites the entry. -/
def ConversationHandler.handle_update (c : ConversationHandler) (u : Update) :
    Except PyError ConversationHandler :=
  match c.current_handler with
  | none => Except.error PyError.attributeError
  | some h =>
    let new_state := h.handle_update u
    if new_state = PyVal.int ConversationHandler.END then
      match dget c.conversations c.current_conversation with
      | none => Except.error PyError.keyError
      | some _ =>
        Except.ok { c with conversations := ddel c.conversations c.current_conversation }
    else
      match new_state with
      | PyVal.none => Except.ok c
      | _ => Except.ok { c with conversations := dset c.conversations c.current_conversation new_state }

/-- The Conversation Identity `check_update` builds for an event, when
extraction succeeds with a present sender. -/
def event_key (u : Update) : Option ConvKey :=
  match extract_user_chat u with
  | some (some usr, chat) => some (chat.map Chat.id, usr.id)
  | _ => none

/-- The observable outcome of a check: whether a handler matched, and
the Selection Record fields afterwards. -/
def check_result (c : ConversationHandler) (o : PyObj) :
    Except PyError (Bool × DictKey × Option TGHandler) :=
  (c.check_update o).map (fun r => (r.1, r.2.current_conversation, r.2.current_handler))

/-- The instance after a successful check recorded identity `k` and
handler `h`. -/
def record (c : ConversationHandler) (k : ConvKey) (h : TGHandler) :
    ConversationHandler :=
  { c with current_conversation := some k, current_handler := some h }

/-! Concrete events, handlers and instances used to evaluate the
development on closed inputs. -/

def userA : User := ⟨7⟩

def userB : User := ⟨8⟩

def chatA : Chat := ⟨3⟩

def msgA : Message := ⟨some userA, chatA⟩

def msgB : Message := ⟨some userB, chatA⟩

def msgNoSender : Message := ⟨none, chatA⟩

def updA : Update := ⟨some msgA, none, none, none, none⟩

def updB : Update := ⟨some msgB, none, none, none, none⟩

def updNoSender : Update := ⟨some msgNoSender, none, none, none, none⟩

def updNoShape : Update := ⟨none, none, none, none, none⟩

def keyA : ConvKey := (some 3, 7)

/-- A handler accepting every event, reporting state `5`. -/
def eAll : TGHandler := ⟨fun _ => true, fun _ => PyVal.int 5⟩

/-- A handler accepting every event, reporting `END`. -/
def eEnd : TGHandler := ⟨fun _ => true, fun _ => PyVal.int (-1)⟩

/-- A handler accepting no event. -/
def eNever : TGHandler := ⟨fun _ => false, fun _ => PyVal.none⟩

/-- A state handler accepting every event, reporting state `9`. -/
def hState : TGHandler := ⟨fun _ => true, fun _ => PyVal.int 9⟩

/-- A fallback accepting every event, reporting no change. -/
def fFall : TGHandler := ⟨fun _ => true, fun _ => PyVal.none⟩

/-- A handler accepting every event, reporting no change. -/
def hNone : TGHandler := ⟨fun _ => true, fun _ => PyVal.none⟩

/-- A freshly constructed instance with no handlers. -/
def chFresh : ConversationHandler := ConversationHandler.init [] [] [] false

/-- A fresh instance whose only entry point accepts everything. -/
def ch1 : ConversationHandler := ConversationHandler.init [eAll] [] [] false

/-- `ch1` right after a successful check for `updA`. -/
def ch1sel : ConversationHandler := record ch1 keyA eAll

/-- `ch1sel` after committing the outcome `5` for `keyA`. -/
def ch1done : ConversationHandler :=
  { ch1sel with conversations := [(some keyA, PyVal.int 5)] }

/-- A fresh instance whose only entry point accepts everything and
reports `END`. -/
def ch2 : ConversationHandler := ConversationHandler.init [eEnd] [] [] false

/-- `ch2` right after a successful check for `updA`: the Selection
Record is set but the store still has no entry for `keyA`. -/
def ch2sel : ConversationHandler := record ch2 keyA eEnd

/-- A variant of `ch2sel` in which `keyA` does have a stored state. -/
def c2p : ConversationHandler :=
  { ch2sel with conversations := [(some keyA, PyVal.int 2)] }

/-- An instance whose store holds a Pending Result for `keyA` resolving
to state `1`. -/
def c4c : ConversationHandler :=
  { ConversationHandler.init [eNever] [(1, [hState])] [fFall] false with
      conversations := [(some keyA, PyVal.promise (some 1))] }

/-- A store holding the concrete state `1` for `keyA`. -/
def c4d : ConvDict := [(some keyA, PyVal.int 1)]

/-- An instance whose store holds a Pending Result for `keyA` resolving
to no value (the deferred callback returned nothing). -/
def c4p : ConversationHandler :=
  { ConversationHandler.init [eNever] [(1, [hState])] [fFall] false with
      conversations := [(some keyA, PyVal.promise none)] }

/-- Reentry enabled, active state `1` for `keyA`, an entry point and a
state handler that both accept. -/
def c5c : ConversationHandler :=
  { ConversationHandler.init [eAll] [(1, [hState])] [] true with
      conversations := [(some keyA, PyVal.int 1)] }

/-- Reentry enabled, active state `1` for `keyA`, no entry point
accepting, a state handler that accepts. -/
def c6c : ConversationHandler :=
  { ConversationHandler.init [eNever] [(1, [hState])] [fFall] true with
      conversations := [(some keyA, PyVal.int 1)] }

/-- No stored state, an accepting entry point, plus a state table and
fallbacks that would also accept. -/
def c7c : ConversationHandler :=
  ConversationHandler.init [eAll] [(1, [hState])] [fFall] false

/-- No stored state and no accepting entry point. -/
def c7n : ConversationHandler :=
  ConversationHandler.init [eNever] [(1, [hState])] [fFall] false

/-- Active state `1`, reentry off, a state handler that accepts. -/
def c8s : ConversationHandler :=
  { ConversationHandler.init [eNever] [(1, [hState])] [fFall] false with
      conversations := [(some keyA, PyVal.int 1)] }

/-- Active state `1`, reentry off, no state handler accepting, a
fallback that accepts. -/
def c8f : ConversationHandler :=
  { ConversationHandler.init [eNever] [(1, [eNever])] [fFall] false with
      conversations := [(some keyA, PyVal.int 1)] }

/-- Active state `1`, reentry off, nothing accepting anywhere. -/
def c8n : ConversationHandler :=
  { ConversationHandler.init [eNever] [(1, [eNever])] [eNever] false with
      conversations := [(some keyA, PyVal.int 1)] }

/-- A Selection Record pointing at a no-change handler, with an active
stored state for `keyA`. -/
def c9c : ConversationHandler :=
  { ConversationHandler.init [hNone] [] [] false with
      conversations := [(some keyA, PyVal.int 1)]
      current_conversation := some keyA
      current_handler := some hNone }

/-! Helper lemmas about the dict operations and the selection
algorithm. -/

/-- After `del d[k]`, a lookup of `k` reports no entry. -/
theorem dget_ddel (d : ConvDict) (k : DictKey) : dget (ddel d k) k = none := by
  induction d with
  | nil => rfl
  | cons p t ih =>
    by_cases hp : p.1 = k
    · have hstep : ddel (p :: t) k = ddel t k := by
        simp [ddel, List.filter_cons, hp]
      rw [hstep]; exact ih
    · simp [ddel, dget, List.filter_cons, List.find?_cons, hp, ih]

/-- With no current state, selection is exactly the entry-point scan. -/
theorem select_handler_none (c : ConversationHandler) (u : Update) :
    c.select_handler u none = c.entry_points.find? (fun e => e.check_update u) := by
  unfold ConversationHandler.select_handler
  cases hf : c.entry_points.find? (fun e => e.check_update u) <;> simp [hf]

/-- With reentry permitted and a state present, an entry-point match is
selected outright. -/
theorem select_handler_reentry (c : ConversationHandler) (u : Update) (s : Int)
    (e : TGHandler) (har : c.allow_reentry = true)
    (he : c.entry_points.find? (fun x => x.check_update u) = some e) :
    c.select_handler u (some s) = some e := by
  unfold ConversationHandler.select_handler
  simp [har, he]

/-- When no entry-point selection is taken (reentry off, or no entry
point accepting), selection for a concrete state is the state-handler
scan followed by the fallback scan. -/
theorem select_handler_state (c : ConversationHandler) (u : Update) (s : Int)
    (hne : c.allow_reentry = false ∨
      c.entry_points.find? (fun x => x.check_update u) = none) :
    c.select_handler u (some s) =
      match (c.state_handlers s).find? (fun h => h.check_update u) with
      | some h => some h
      | none => c.fallbacks.find? (fun f => f.check_update u) := by
  unfold ConversationHandler.select_handler
  rcases hne with h | h
  · simp [h]
  · cases har : c.allow_reentry <;> simp [h]

/-- On an `Update` whose identity extraction succeeds with key `k`,
`check_update` is the selection over the resolved state of `k`, its
success recording `k` and the chosen handler. -/
theorem check_update_key (c : ConversationHandler) (u : Update) (k : ConvKey)
    (hk : event_key u = some k) :
    c.check_update (PyObj.update u) =
      match c.select_handler u (resolve_state (dget c.conversations (some k))) with
      | none => Except.ok (false, c)
      | some h => Except.ok (true, record c k h) := by
  unfold event_key at hk
  cases hx : extract_user_chat u with
  | none => rw [hx] at hk; exact absurd hk (by simp)
  | some pr =>
    obtain ⟨user, chat⟩ := pr
    rw [hx] at hk
    cases user with
    | none => simp at hk
    | some usr =>
      simp only [Option.some.injEq] at hk
      subst hk
      simp only [ConversationHandler.check_update, hx]
      cases hsel : c.select_handler u
          (resolve_state (dget c.conversations (some (Option.map Chat.id chat, usr.id)))) <;>
        simp [hsel, record]

/-- Selection does not read the conversation store. -/
theorem select_handler_conversations (c : ConversationHandler) (d : ConvDict)
    (u : Update) (st : Option Int) :
    ConversationHandler.select_handler { c with conversations := d } u st =
      c.select_handler u st := rfl

/-! Claims. -/

/-- C1, counterexample: after a successful check for `updA`, invoking
the commit phase for the different event `updB` does not fail; it
silently executes using the stale Selection Record. -/
theorem C1_counterexample :
    ConversationHandler.check_update ch1 (PyObj.update updA) =
      Except.ok (true, ch1sel) ∧
    updB ≠ updA ∧
    ConversationHandler.handle_update ch1sel updB = Except.ok ch1done :=
  ⟨rfl, by decide, rfl⟩

/-- C1 (amended): the commit phase fails with the attribute-error
condition exactly when the instance holds no Selection Record at all
(no check ever succeeded); whenever some prior check recorded a
handler — even for a different event — the commit does not fail with
that condition and executes using the recorded handler. -/
theorem C1_theorem (c : ConversationHandler) (u : Update) :
    (c.current_handler = none →
      c.handle_update u = Except.error PyError.attributeError) ∧
    (∀ h, c.current_handler = some h →
      c.handle_update u ≠ Except.error PyError.attributeError) := by
  constructor
  · intro hn
    unfold ConversationHandler.handle_update
    rw [hn]
  · intro h hh
    unfold ConversationHandler.handle_update
    rw [hh]
    by_cases hE : h.handle_update u = PyVal.int ConversationHandler.END
    · cases hd : dget c.conversations c.current_conversation <;> simp [hE, hd]
    · cases hv : h.handle_update u with
      | none => simp [hv]
      | int v =>
        rw [hv] at hE
        simp [hv, hE]
      | promise r => simp [hv]

/-- C1, witness: a fresh instance fails the commit with the
attribute-error condition; `ch1sel`, which recorded a selection for
`updA`, commits `updB` without that failure. -/
theorem C1_witness :
    ConversationHandler.handle_update chFresh updA =
      Except.error PyError.attributeError ∧
    ConversationHandler.handle_update ch1sel updB ≠
      Except.error PyError.attributeError :=
  ⟨(C1_theorem chFresh updA).1 rfl, (C1_theorem ch1sel updB).2 eAll rfl⟩

/-- C2, counterexample: a check that succeeds through an entry point
leaves the store without an entry for the identity, and committing an
`END` outcome then fails with the key-error condition instead of being
a no-op. -/
theorem C2_counterexample :
    ConversationHandler.check_update ch2 (PyObj.update updA) =
      Except.ok (true, ch2sel) ∧
    dget ch2sel.conversations ch2sel.current_conversation = none ∧
    ConversationHandler.handle_update ch2sel updA =
      Except.error PyError.keyError :=
  ⟨rfl, rfl, rfl⟩

/-- C2 (amended): when the recorded identity has a stored entry, an
`END` outcome removes exactly that entry (and a subsequent lookup of
the identity reports no state); when the identity has no entry, the
commit fails with the key-error condition rather than being a no-op. -/
theorem C2_theorem (c : ConversationHandler) (u : Update) (h : TGHandler)
    (hh : c.current_handler = some h)
    (hr : h.handle_update u = PyVal.int ConversationHandler.END) :
    (∀ v, dget c.conversations c.current_conversation = some v →
      c.handle_update u =
        Except.ok
          { c with conversations := ddel c.conversations c.current_conversation } ∧
      dget (ddel c.conversations c.current_conversation)
          c.current_conversation = none) ∧
    (dget c.conversations c.current_conversation = none →
      c.handle_update u = Except.error PyError.keyError) := by
  constructor
  · intro v hv
    refine ⟨?_, dget_ddel _ _⟩
    unfold ConversationHandler.handle_update
    rw [hh]
    simp [hr, hv]
  · intro hv
    unfold ConversationHandler.handle_update
    rw [hh]
    simp [hr, hv]

/-- C2, witness: with a stored state for `keyA` the `END` commit
removes the entry and the identity reads back as no-state; with no
stored entry it fails with the key-error condition. -/
theorem C2_witness :
    (ConversationHandler.handle_update c2p updA =
        Except.ok
          { c2p with conversations := ddel c2p.conversations c2p.current_conversation } ∧
      dget (ddel c2p.conversations c2p.current_conversation)
          c2p.current_conversation = none) ∧
    ConversationHandler.handle_update ch2sel updA =
      Except.error PyError.keyError :=
  ⟨(C2_theorem c2p updA eEnd rfl rfl).1 (PyVal.int 2) rfl,
   (C2_theorem ch2sel updA eEnd rfl rfl).2 rfl⟩

/-- C3, counterexample: an event carrying a message with no sender
makes the check phase raise the attribute-error condition instead of
returning the ordinary negative result. -/
theorem C3_counterexample :
    ConversationHandler.check_update chFresh (PyObj.update updNoSender) =
      Except.error PyError.attributeError := rfl

/-- C3 (amended): a non-`Update` object and an event matching none of
the five recognized shapes both yield the ordinary negative result
`False` from the check phase; however, an event whose recognized shape
carries a message with no sender raises the attribute-error condition
rather than returning `False`. -/
theorem C3_theorem (c : ConversationHandler) (o : PyObj) :
    (o = PyObj.nonUpdate → c.check_update o = Except.ok (false, c)) ∧
    (∀ u, o = PyObj.update u → extract_user_chat u = none →
      c.check_update o = Except.ok (false, c)) ∧
    (∀ u m, o = PyObj.update u → u.message = some m → m.from_user = none →
      c.check_update o = Except.error PyError.attributeError) := by
  refine ⟨?_, ?_, ?_⟩
  · intro ho; subst ho; rfl
  · intro u ho hx
    subst ho
    simp [ConversationHandler.check_update, hx]
  · intro u m ho hm hf
    subst ho
    have hx : extract_user_chat u = some (none, some m.chat) := by
      simp [extract_user_chat, hm, hf]
    simp [ConversationHandler.check_update, hx]

/-- C3, witness: a non-`Update` object and a shapeless event both give
`False`; the no-sender message gives the attribute-error condition. -/
theorem C3_witness :
    ConversationHandler.check_update chFresh PyObj.nonUpdate =
      Except.ok (false, chFresh) ∧
    ConversationHandler.check_update chFresh (PyObj.update updNoShape) =
      Except.ok (false, chFresh) ∧
    ConversationHandler.check_update chFresh (PyObj.update updNoSender) =
      Except.error PyError.attributeError :=
  ⟨(C3_theorem chFresh PyObj.nonUpdate).1 rfl,
   (C3_theorem chFresh (PyObj.update updNoShape)).2.1 updNoShape rfl rfl,
   (C3_theorem chFresh (PyObj.update updNoSender)).2.2 updNoSender msgNoSender
     rfl rfl rfl⟩

/-- C9: committing a no-change outcome (the handler returns `None`)
leaves the whole instance — in particular the conversation store and
the identity's stored state — exactly as it was before the commit. -/
theorem C9_theorem (c : ConversationHandler) (u : Update) (h : TGHandler)
    (hh : c.current_handler = some h)
    (hr : h.handle_update u = PyVal.none) :
    c.handle_update u = Except.ok c := by
  unfold ConversationHandler.handle_update
  rw [hh]
  simp [hr]

/-- C9, witness: the no-change commit on `c9c` returns `c9c` itself. -/
theorem C9_witness : ConversationHandler.handle_update c9c updA = Except.ok c9c :=
  C9_theorem c9c updA hNone rfl rfl

/-- C10: the check phase never modifies the conversation store: any
successful `check_update` returns an instance whose store is the prior
store, so a stored Pending handle stays stored until a commit. -/
theorem C10_theorem (c : ConversationHandler) (o : PyObj) (b : Bool)
    (c' : ConversationHandler)
    (hres : c.check_update o = Except.ok (b, c')) :
    c'.conversations = c.conversations := by
  cases o with
  | nonUpdate =>
    simp [ConversationHandler.check_update] at hres
    rw [← hres.2]
  | update u =>
    cases hx : extract_user_chat u with
    | none =>
      simp [ConversationHandler.check_update, hx] at hres
      rw [← hres.2]
    | some pr =>
      obtain ⟨user, chat⟩ := pr
      cases user with
      | none => simp [ConversationHandler.check_update, hx] at hres
      | some usr =>
        cases hsel : c.select_handler u
            (resolve_state (dget c.conversations
              (some (Option.map Chat.id chat, usr.id)))) <;>
          simp [ConversationHandler.check_update, hx, hsel] at hres <;>
          rw [← hres.2]

/-- C10, witness: the successful check of `updA` on `ch1` left the
store of the returned instance equal to the prior store. -/
theorem C10_witness : ch1sel.conversations = ch1.conversations :=
  C10_theorem ch1 (PyObj.update updA) true ch1sel rfl

/-- C4: when the stored value for the extracted identity is a Pending
Result resolving to `r`, the check phase behaves exactly as it would
with `r` itself as the stored situation — a concrete state entry when
`r` is a state value, no entry at all when `r` is `None`: the match
verdict and the recorded Selection Record are identical, so selection
uses the resolved value and never the Pending handle itself. -/
theorem C4_theorem (c : ConversationHandler) (u : Update) (k : ConvKey)
    (r : Option Int) (d : ConvDict)
    (hk : event_key u = some k)
    (hs : dget c.conversations (some k) = some (PyVal.promise r))
    (hd : dget d (some k) = Option.map PyVal.int r) :
    check_result c (PyObj.update u) =
      check_result { c with conversations := d } (PyObj.update u) := by
  unfold check_result
  rw [check_update_key c u k hk,
    check_update_key { c with conversations := d } u k hk]
  have hsL : resolve_state (dget c.conversations (some k)) = r := by
    rw [hs]; rfl
  have hsR : resolve_state
      (dget ({ c with conversations := d } : ConversationHandler).conversations
        (some k)) = r := by
    show resolve_state (dget d (some k)) = r
    rw [hd]
    cases r <;> rfl
  rw [hsL, hsR, select_handler_conversations c d u r]
  cases hsel : c.select_handler u r <;>
    simp [hsel, record, Except.map]

/-- C4, witness: with a Pending Result for `keyA` resolving to `1`, the
check of `updA` gives the same verdict and Selection Record as with
the concrete state `1` stored; with a Pending Result resolving to
`None`, it gives the same verdict and Selection Record as with no
entry stored at all (the no-state routing, not the state-table
routing the handle itself would have triggered). -/
theorem C4_witness :
    check_result c4c (PyObj.update updA) =
      check_result { c4c with conversations := c4d } (PyObj.update updA) ∧
    check_result c4p (PyObj.update updA) =
      check_result { c4p with conversations := [] } (PyObj.update updA) :=
  ⟨C4_theorem c4c updA keyA (some 1) c4d rfl rfl rfl,
   C4_theorem c4p updA keyA none [] rfl rfl rfl⟩

/-- C5: with reentry permitted and an active stored state, an event
accepted by some entry point is routed to the first accepting entry
point — regardless of the state table, so even when a handler
registered for that state would also have accepted. -/
theorem C5_theorem (c : ConversationHandler) (u : Update) (k : ConvKey) (s : Int)
    (e : TGHandler)
    (har : c.allow_reentry = true)
    (hk : event_key u = some k)
    (hs : resolve_state (dget c.conversations (some k)) = some s)
    (he : c.entry_points.find? (fun x => x.check_update u) = some e) :
    c.check_update (PyObj.update u) = Except.ok (true, record c k e) := by
  rw [check_update_key c u k hk, hs, select_handler_reentry c u s e har he]

/-- C5, witness: on `c5c` (reentry on, state `1` active, entry point
`eAll` and state handler `hState` both accepting) the entry point is
selected. -/
theorem C5_witness :
    ConversationHandler.check_update c5c (PyObj.update updA) =
      Except.ok (true, record c5c keyA eAll) ∧
    (c5c.state_handlers 1).find? (fun x => x.check_update updA) = some hState :=
  ⟨C5_theorem c5c updA keyA 1 eAll rfl rfl rfl rfl, rfl⟩

/-- C6: with reentry permitted, an active stored state and no entry
point accepting, routing does not fail: the handlers registered for
the state are scanned and the first acceptor is selected. -/
theorem C6_theorem (c : ConversationHandler) (u : Update) (k : ConvKey) (s : Int)
    (h : TGHandler)
    (_har : c.allow_reentry = true)
    (hk : event_key u = some k)
    (hs : resolve_state (dget c.conversations (some k)) = some s)
    (he : c.entry_points.find? (fun x => x.check_update u) = none)
    (hh : (c.state_handlers s).find? (fun x => x.check_update u) = some h) :
    c.check_update (PyObj.update u) = Except.ok (true, record c k h) := by
  rw [check_update_key c u k hk, hs, select_handler_state c u s (Or.inr he)]
  simp [hh]

/-- C6, witness: on `c6c` (reentry on, state `1` active, no entry point
accepting) the state handler `hState` is selected. -/
theorem C6_witness :
    ConversationHandler.check_update c6c (PyObj.update updA) =
      Except.ok (true, record c6c keyA hState) :=
  C6_theorem c6c updA keyA 1 hState rfl rfl rfl rfl rfl

/-- C7: for an identity with no stored state, the check phase is
decided by the entry points alone: no entry point accepting gives
`False`, an accepting one gives the first acceptor, and the verdict
and Selection Record are unchanged under any replacement of the state
table and the fallbacks (neither is consulted). -/
theorem C7_theorem (c : ConversationHandler) (u : Update) (k : ConvKey)
    (hk : event_key u = some k)
    (hs : dget c.conversations (some k) = none) :
    (c.entry_points.find? (fun x => x.check_update u) = none →
      c.check_update (PyObj.update u) = Except.ok (false, c)) ∧
    (∀ e, c.entry_points.find? (fun x => x.check_update u) = some e →
      c.check_update (PyObj.update u) = Except.ok (true, record c k e)) ∧
    (∀ sts fbs,
      check_result { c with states := sts, fallbacks := fbs } (PyObj.update u) =
        check_result c (PyObj.update u)) := by
  have hres : resolve_state (dget c.conversations (some k)) = none := by
    rw [hs]; rfl
  refine ⟨?_, ?_, ?_⟩
  · intro he
    rw [check_update_key c u k hk, hres, select_handler_none, he]
  · intro e he
    rw [check_update_key c u k hk, hres, select_handler_none, he]
  · intro sts fbs
    have hc2 : ConversationHandler.check_update
        { c with states := sts, fallbacks := fbs } (PyObj.update u) =
        match c.entry_points.find? (fun x => x.check_update u) with
        | none => Except.ok (false, { c with states := sts, fallbacks := fbs })
        | some e =>
          Except.ok (true, record { c with states := sts, fallbacks := fbs } k e) := by
      rw [check_update_key { c with states := sts, fallbacks := fbs } u k hk]
      rw [show resolve_state
          (dget ({ c with states := sts, fallbacks := fbs } :
            ConversationHandler).conversations (some k)) = none from hres]
      rw [show ConversationHandler.select_handler
          { c with states := sts, fallbacks := fbs } u none =
          c.entry_points.find? (fun x => x.check_update u) from
        select_handler_none { c with states := sts, fallbacks := fbs } u]
    have hc1 : c.check_update (PyObj.update u) =
        match c.entry_points.find? (fun x => x.check_update u) with
        | none => Except.ok (false, c)
        | some e => Except.ok (true, record c k e) := by
      rw [check_update_key c u k hk, hres, select_handler_none]
    unfold check_result
    rw [hc1, hc2]
    cases he : c.entry_points.find? (fun x => x.check_update u) <;>
      simp [record, Except.map]

/-- C7, witness: `c7c` (no stored state, accepting entry point) selects
its entry point; `c7n` (no entry point accepting) returns `False` even
though its state table and fallbacks would accept; emptying the state
table and fallbacks of `c7c` does not change the outcome. -/
theorem C7_witness :
    ConversationHandler.check_update c7c (PyObj.update updA) =
      Except.ok (true, record c7c keyA eAll) ∧
    ConversationHandler.check_update c7n (PyObj.update updA) =
      Except.ok (false, c7n) ∧
    check_result { c7c with states := [], fallbacks := [] } (PyObj.update updA) =
      check_result c7c (PyObj.update updA) :=
  ⟨(C7_theorem c7c updA keyA rfl rfl).2.1 eAll rfl,
   (C7_theorem c7n updA keyA rfl rfl).1 rfl,
   (C7_theorem c7c updA keyA rfl rfl).2.2 [] []⟩

/-- C8: for an identity in a concrete state with no entry-point
selection taken, the first accepting state handler is selected
(fallbacks not consulted); when none of the state handlers accepts,
the first accepting fallback is selected; when no fallback accepts
either, the check returns `False`. -/
theorem C8_theorem (c : ConversationHandler) (u : Update) (k : ConvKey) (s : Int)
    (hk : event_key u = some k)
    (hs : resolve_state (dget c.conversations (some k)) = some s)
    (hne : c.allow_reentry = false ∨
      c.entry_points.find? (fun x => x.check_update u) = none) :
    (∀ h, (c.state_handlers s).find? (fun x => x.check_update u) = some h →
      c.check_update (PyObj.update u) = Except.ok (true, record c k h)) ∧
    ((c.state_handlers s).find? (fun x => x.check_update u) = none →
      (∀ f, c.fallbacks.find? (fun x => x.check_update u) = some f →
        c.check_update (PyObj.update u) = Except.ok (true, record c k f)) ∧
      (c.fallbacks.find? (fun x => x.check_update u) = none →
        c.check_update (PyObj.update u) = Except.ok (false, c))) := by
  constructor
  · intro h hh
    rw [check_update_key c u k hk, hs, select_handler_state c u s hne]
    simp [hh]
  · intro hsh
    constructor
    · intro f hf
      rw [check_update_key c u k hk, hs, select_handler_state c u s hne]
      simp [hsh, hf]
    · intro hf
      rw [check_update_key c u k hk, hs, select_handler_state c u s hne]
      simp [hsh, hf]

/-- C8, witness: `c8s` selects its state handler `hState`; `c8f`,
whose state handlers reject, selects the fallback `fFall`; `c8n`,
where nothing accepts, returns `False`. -/
theorem C8_witness :
    ConversationHandler.check_update c8s (PyObj.update updA) =
      Except.ok (true, record c8s keyA hState) ∧
    ConversationHandler.check_update c8f (PyObj.update updA) =
      Except.ok (true, record c8f keyA fFall) ∧
    ConversationHandler.check_update c8n (PyObj.update updA) =
      Except.ok (false, c8n) :=
  ⟨(C8_theorem c8s updA keyA 1 rfl rfl (Or.inl rfl)).1 hState rfl,
   ((C8_theorem c8f updA keyA 1 rfl rfl (Or.inl rfl)).2 rfl).1 fFall rfl,
   ((C8_theorem c8n updA keyA 1 rfl rfl (Or.inl rfl)).2 rfl).2 rfl⟩
